import Mathlib

/-!
Shallow embedding of the two backend drivers of VectorDBBench present in the
sources — `tidb_serverless` (tidb.py, config.py) and `mongodb_cloud`
(mongodb_cloud.py, config.py) — together with theorems settling the spec
claims about them.

Modelling conventions:
* Python `int` values that are list lengths, offsets and counts are `Nat`.
* A driver call (SQL `INSERT`, mongo `insert_many`) is abstracted as a
  function from the call's arguments to `Option String`: `none` means the
  call succeeded, `some e` means it raised exception `e`.
* Python exceptions escaping a function are `Except.error`; a normal return
  is `Except.ok`.
* Side effects relevant to the claims (connection open and close, backend
  commands, sleeps) are reified as explicit event lists (traces).
-/

namespace VectorDBBench

/-- Modelled from the spec: the metric-type enum `MetricType` is defined in
`vectordb_bench/backend/clients/api.py`, which is not among the sources; the
spec describes it as the enum of L2, inner-product and cosine, with cosine the default. -/
inductive MetricType
  | L2
  | IP
  | COSINE
deriving DecidableEq, Repr

/-- `TiDBServerlessIndexConfig.parse_metric` (tidb_serverless/config.py):
`metric_type == MetricType.L2` gives `l2`, anything else `cosine`.
The `metric_type` field is `MetricType | None`, hence `Option MetricType`. -/
def TiDBIndexConfig.parse_metric : Option MetricType → String
  | some .L2 => "l2"
  | _ => "cosine"

/-- `TiDBServerlessIndexConfig.parse_metric_fun_str` (tidb_serverless/config.py). -/
def TiDBIndexConfig.parse_metric_fun_str : Option MetricType → String
  | some .L2 => "vec_l2_distance"
  | _ => "vec_cosine_distance"

/-- `MongodbCloudIndexConfig.parse_metric` (mongodb_cloud/config.py):
L2 gives `euclidean`, IP gives `dotProduct`, anything else `cosine`. -/
def MongoIndexConfig.parse_metric : Option MetricType → String
  | some .L2 => "euclidean"
  | some .IP => "dotProduct"
  | _ => "cosine"

/-! ## Python `range(0, stop, step)`

`range` with step `0` raises `ValueError: range() arg 3 must not be zero`
before producing any element; with step `s > 0` it yields
`0, s, 2*s, ...` while the value is `< stop`, i.e. `⌈stop / s⌉` values. -/

/-- The Python exception escaping `insert_embeddings` when the computed batch
size is zero. -/
inductive PyError
  | rangeStepZero
deriving DecidableEq, Repr

/-- Python `range(0, stop, step)` as a list, for non-negative arguments. -/
def pyRange (stop step : Nat) : Except PyError (List Nat) :=
  if step = 0 then .error .rangeStepZero
  else .ok ((List.range ((stop + step - 1) / step)).map (· * step))

/-! ## TiDBServeless.insert_embeddings (tidb.py)

```
insert_batch_size = len(embeddings) // self.insert_concurrency   # // 10
for i in range(0, len(embeddings), insert_batch_size):
    offset = i
    size = min(insert_batch_size, len(embeddings) - i)
    submit(_insert_embeddings_serial, embeddings, metadata, offset, size)
for future in as_completed(futures):
    ex = future.result()
    if ex: return 0, ex
return len(metadata), None
```

All submitted batches run to completion (the executor is shut down with
`wait=True` and nothing is cancelled); a batch whose `_insert_embeddings_serial`
succeeds has committed its `size` records, a failed one committed nothing
(`conn.commit()` is only reached on success). -/

/-- The fixed `insert_concurrency` of `TiDBServeless.__init__`. -/
def tidbInsertConcurrency : Nat := 10

/-- The batches `(offset, size)` submitted by `TiDBServeless.insert_embeddings`
for an embedding list of length `n`, or the `ValueError` escaping from
`range` when the floor-division batch size `n / 10` is zero. -/
def tidbInsertBatches (n : Nat) : Except PyError (List (Nat × Nat)) :=
  let insert_batch_size := n / tidbInsertConcurrency
  (pyRange n insert_batch_size).map
    (fun offsets => offsets.map (fun i => (i, min insert_batch_size (n - i))))

/-- `TiDBServeless.insert_embeddings` for an embedding list of length `n` and
metadata list of length `nMeta`, against a driver where `driver offset size`
is the outcome of `_insert_embeddings_serial` on that batch. Failure of any
batch yields `(0, that exception)`; otherwise `(len(metadata), None)`. -/
def tidbInsertEmbeddings (n nMeta : Nat) (driver : Nat → Nat → Option String) :
    Except PyError (Nat × Option String) :=
  (tidbInsertBatches n).map (fun batches =>
    match (batches.map (fun b => driver b.1 b.2)).filterMap id with
    | [] => (nMeta, none)
    | e :: _ => (0, some e))

/-- The number of records actually committed by the batch workers of
`TiDBServeless.insert_embeddings`: every batch runs to completion, and a batch
commits its records exactly when `_insert_embeddings_serial` returns `None`. -/
def tidbCommitted (n : Nat) (driver : Nat → Nat → Option String) : Nat :=
  match tidbInsertBatches n with
  | .error _ => 0
  | .ok batches =>
      ((batches.filter (fun b => (driver b.1 b.2).isNone)).map (fun b => b.2)).sum

/-- The half-open index intervals of a batch list, concatenated in order:
batch `(offset, size)` contributes `offset, offset+1, ..., offset+size-1`. -/
def batchesFlatten (batches : List (Nat × Nat)) : List Nat :=
  batches.flatMap (fun b => (List.range b.2).map (b.1 + ·))

/-! ## MongodbCloud.insert_embeddings (mongodb_cloud.py)

```
assert len(embeddings) == len(metadata)
insert_count = 0
batch_size = 1000
try:
    for batch_start_offset in range(0, len(embeddings), 1000):
        batch_end_offset = min(batch_start_offset + batch_size, len(embeddings))
        ...
        self.collection.insert_many(insert_datas)
        insert_count += batch_end_offset - batch_start_offset
except Exception as e:
    return (insert_count, e)
return (len(embeddings), None)
```
-/

/-- The fixed sub-batch size of `MongodbCloud.insert_embeddings`. -/
def mongoBatchSize : Nat := 1000

/-- The `batch_start_offset` values iterated by `MongodbCloud.insert_embeddings`
for an embedding list of length `n`: Python `range(0, n, 1000)`. -/
def mongoOffsets (n : Nat) : List Nat :=
  (List.range ((n + (mongoBatchSize - 1)) / mongoBatchSize)).map (· * mongoBatchSize)

/-- The sequential sub-batch loop of `MongodbCloud.insert_embeddings`:
`driver start stop` is the outcome of `insert_many` on records `[start, stop)`.
Returns `some (insert_count, e)` when some `insert_many` raises `e`, `none`
when every sub-batch succeeds. -/
def mongoInsertGo (n : Nat) (driver : Nat → Nat → Option String) :
    List Nat → Nat → Option (Nat × String)
  | [], _ => none
  | s :: rest, acc =>
    let e := min (s + mongoBatchSize) n
    match driver s e with
    | some err => some (acc, err)
    | none => mongoInsertGo n driver rest (acc + (e - s))

/-- `MongodbCloud.insert_embeddings` for an embedding list of length `n`
(metadata list of equal length, enforced by the `assert`). -/
def mongoInsertEmbeddings (n : Nat) (driver : Nat → Nat → Option String) :
    Nat × Option String :=
  match mongoInsertGo n driver (mongoOffsets n) 0 with
  | some (cnt, err) => (cnt, some err)
  | none => (n, none)

/-! ## Optimize / readiness polling

`TiDBServeless.optimize` (tidb.py) loops `while True`, each iteration issuing
a fresh status query (`_check_tiflash_replica_progress`, then after a compact,
`_get_tiflash_index_pending_rows`), sleeping 2 seconds when not ready.

`MongodbCloud.optimize` (mongodb_cloud.py) calls
`self.collection.list_search_indexes` ONCE, before the loop;
the result is a cursor. Each `while` iteration runs
`for index in search_indexes`, which consumes the cursor up to and including
the first non-READY entry (the `for` body `break`s there); when the cursor is
exhausted the `for` yields nothing, `index_is_building` stays `False`, and the
`while` exits. The status stream is never re-fetched. -/

/-- `while True` loop of `TiDBServeless.optimize` phase 1: poll
`_check_tiflash_replica_progress` at times `t, t+1, ...`, sleeping 2s between
polls, until a poll returns progress exactly `1`. Fuel bounds the number of
polls modelled; `some t'` means the loop exited right after the poll at `t'`. -/
def tidbWaitReplica (progress : Nat → ℚ) : Nat → Nat → Option Nat
  | 0, _ => none
  | fuel + 1, t => if progress t = 1 then some t else tidbWaitReplica progress fuel (t + 1)

/-- `while True` loop of `TiDBServeless.optimize` phase 2: poll
`_get_tiflash_index_pending_rows` until a poll returns `0` pending rows. -/
def tidbWaitPending (pending : Nat → Nat) : Nat → Nat → Option Nat
  | 0, _ => none
  | fuel + 1, t => if pending t > 0 then tidbWaitPending pending fuel (t + 1) else some t

/-- One pass of the inner `for index in search_indexes` loop of
`MongodbCloud.optimize` over the (mutable, consumable) cursor, which `break`s
at the first index whose status differs from READY:
returns `index_is_building` and what remains of the cursor afterwards. -/
def mongoScanCursor : List String → Bool × List String
  | [] => (false, [])
  | s :: rest => if s = "READY" then mongoScanCursor rest else (true, rest)

/-- The `while True` loop of `MongodbCloud.optimize`, driven by the one cursor
fetched before the loop; counts the 30-second sleeps performed. `some k` means
the loop exited after `k` sleeps. -/
def mongoOptimizeLoop : Nat → List String → Nat → Option Nat
  | 0, _, _ => none
  | fuel + 1, cursor, sleeps =>
    match mongoScanCursor cursor with
    | (false, _) => some sleeps
    | (true, rest) => mongoOptimizeLoop fuel rest (sleeps + 1)

/-- `MongodbCloud.optimize` on a cursor whose entries are the index statuses
returned by the single `list_search_indexes` call. -/
def mongoOptimize (cursor : List String) (fuel : Nat) : Option Nat :=
  mongoOptimizeLoop fuel cursor 0

/-! ## init context managers -/

/-- Resource events of the `init` context managers. -/
inductive InitEvent
  | openConn
  | openCursor
  | bodyRun
  | closeCursor
  | closeConn
  | openClient
  | closeClient
deriving DecidableEq, Repr

/-- `TiDBServeless.init` (tidb.py): opens a connection and a cursor, yields to
the body inside `try`, and the `finally` block closes the cursor then the
connection — on the normal path and on the path where the body raises alike
(`bodyRaises` selects the path; the trace is the same on both). -/
def tidbInitTrace (_bodyRaises : Bool) : List InitEvent :=
  [.openConn, .openCursor, .bodyRun, .closeCursor, .closeConn]

/-- `MongodbCloud.init` (mongodb_cloud.py): opens a `MongoClient` and yields;
there is no `try/finally` and no close call, so nothing is released after the
body on either exit path. -/
def mongoInitTrace (_bodyRaises : Bool) : List InitEvent :=
  [.openClient, .bodyRun]

/-! ## Constructors (`__init__`) -/

/-- Backend operations a constructor can perform. -/
inductive CtorOp
  | connect
  | ping
  | dropCollection
  | createCollection
  | createSearchIndex
  | dropTable
  | createTable
deriving DecidableEq, Repr

/-- Backend operations of `MongodbCloud.__init__`: it always constructs a
`MongoClient` and runs an admin ping command; only under `drop_old`
does it drop and recreate the collection and issue `create_search_index`. -/
def mongoCtorOps (drop_old : Bool) : List CtorOp :=
  [.connect, .ping] ++
    (if drop_old then [.dropCollection, .createCollection, .createSearchIndex] else [])

/-- Backend operations of `TiDBServeless.__init__`: it only stores fields
unless `drop_old` is set, in which case `_drop_table` and `_create_table` each
open their own connection and run their DDL statement. -/
def tidbCtorOps (drop_old : Bool) : List CtorOp :=
  if drop_old then [.connect, .dropTable, .connect, .createTable] else []

/-! ## search_embedding -/

/-- Effects of one `search_embedding` call on the backend. -/
inductive DBEffect
  | readQuery
  | writeOp
deriving DecidableEq, Repr

/-- `TiDBServeless.search_embedding` (tidb.py): one `execute` of a `SELECT id
... ORDER BY metric_func(...) LIMIT k` on the query cursor, one `fetchall`,
then `[int(i[0]) for i in result]`. `rows` is the id column of the rows the
backend returns for the query (at most `k` of them, by the SQL `LIMIT`);
the result is the effect list paired with the returned ids. -/
def tidbSearchEmbedding (rows : List Int) : List DBEffect × List Int :=
  ([.readQuery], rows.map (fun i => i))

/-- `MongodbCloud.search_embedding` (mongodb_cloud.py): one `aggregate` of a
vectorSearch pipeline with limit k, then the int conversion of the id field
of each returned row. `rows` is the id sequence the backend returns (at most `k`, by
the pipeline's `limit`). -/
def mongoSearchEmbedding (rows : List Int) : List DBEffect × List Int :=
  ([.readQuery], rows.map (fun i => i))

/-- Contiguous slice number `i` of a partition of the index range `[0, n)`
into consecutive slices of size `b` (the last slice possibly shorter): the
interval the batch at offset `i * b` covers. -/
def batchSlice (b n i : Nat) : List Nat :=
  (List.range (min b (n - i * b))).map (fun j => i * b + j)

/-! ## Helper lemmas -/

lemma batchSlice_succ (b n' i : Nat) :
    batchSlice b (n' + b) (i + 1) = (batchSlice b n' i).map (fun j => b + j) := by
  unfold batchSlice
  rw [List.map_map]
  have h1 : n' + b - (i + 1) * b = n' - i * b := by
    have h : (i + 1) * b = i * b + b := by ring
    omega
  rw [h1]
  apply List.map_congr_left
  intro j _
  simp only [Function.comp_apply]
  have h : (i + 1) * b = i * b + b := by ring
  omega

lemma batchSlice_zero (b n : Nat) (h : b ≤ n) :
    batchSlice b n 0 = List.range b := by
  unfold batchSlice
  have h1 : min b (n - 0 * b) = b := by
    have h0 : (0 : Nat) * b = 0 := by ring
    omega
  rw [h1]
  apply List.map_id''
  intro j
  omega

lemma range_flatMap_batchSlice (b : Nat) (hb : 0 < b) :
    ∀ n, (List.range ((n + b - 1) / b)).flatMap (batchSlice b n) = List.range n := by
  intro n
  induction n using Nat.strong_induction_on with
  | _ n ih =>
    rcases Nat.lt_or_ge b n with hgt | hle
    · obtain ⟨n', rfl⟩ : ∃ n', n = n' + b := ⟨n - b, by omega⟩
      have hK : (n' + b + b - 1) / b = (n' + b - 1) / b + 1 := by
        have h : n' + b + b - 1 = (n' + b - 1) + b := by omega
        rw [h, Nat.add_div_right _ hb]
      rw [hK, List.range_succ_eq_map, List.flatMap_cons, List.flatMap_map]
      have hhead : batchSlice b (n' + b) 0 = List.range b :=
        batchSlice_zero b (n' + b) (by omega)
      have htail : (List.range ((n' + b - 1) / b)).flatMap
            (fun i => batchSlice b (n' + b) (Nat.succ i))
          = List.map (fun j => b + j) (List.range n') := by
        have hcong : (List.range ((n' + b - 1) / b)).flatMap
              (fun i => batchSlice b (n' + b) (Nat.succ i))
            = (List.range ((n' + b - 1) / b)).flatMap
              (fun i => (batchSlice b n' i).map (fun j => b + j)) := by
          apply List.flatMap_congr
          intro i _
          exact batchSlice_succ b n' i
        rw [hcong, ← List.map_flatMap, ih n' (by omega)]
      rw [hhead, htail, ← List.range_add, Nat.add_comm]
    · rcases Nat.eq_zero_or_pos n with hz | hpos
      · subst hz
        have h0 : (0 + b - 1) / b = 0 := Nat.div_eq_of_lt (by omega)
        rw [h0]
        rfl
      · have h1 : (n + b - 1) / b = 1 := by
          apply Nat.div_eq_of_lt_le <;> omega
        rw [h1]
        have hr1 : List.range 1 = [0] := rfl
        rw [hr1, List.flatMap_cons, List.flatMap_nil, List.append_nil]
        unfold batchSlice
        have hmin : min b (n - 0 * b) = n := by
          have h0 : (0 : Nat) * b = 0 := by ring
          omega
        rw [hmin]
        apply List.map_id''
        intro j
        omega

lemma tidbInsertBatches_ok (n : Nat) (h : 10 ≤ n) :
    tidbInsertBatches n =
      .ok ((List.range ((n + n / 10 - 1) / (n / 10))).map
        (fun i => (i * (n / 10), min (n / 10) (n - i * (n / 10))))) := by
  have hb : n / 10 ≠ 0 := by
    have h1 : 1 ≤ n / 10 := (Nat.one_le_div_iff (by norm_num)).2 h
    omega
  unfold tidbInsertBatches pyRange tidbInsertConcurrency
  simp only [hb, if_false, Except.map, List.map_map]
  rfl

lemma filterMap_id_map_none {α β : Type} (l : List α) (f : α → Option β)
    (h : ∀ a ∈ l, f a = none) : (l.map f).filterMap id = [] := by
  rw [List.filterMap_eq_nil_iff]
  intro a ha
  obtain ⟨b, hb, rfl⟩ := List.mem_map.1 ha
  exact h b hb

lemma mongoInsertGo_none (n : Nat) (driver : Nat → Nat → Option String)
    (hok : ∀ s e, driver s e = none) :
    ∀ (offs : List Nat) (acc : Nat), mongoInsertGo n driver offs acc = none := by
  intro offs
  induction offs with
  | nil => intro acc; rfl
  | cons s rest ih =>
    intro acc
    simp only [mongoInsertGo, hok]
    exact ih _

lemma mongoInsertGo_append (n : Nat) (driver : Nat → Nat → Option String)
    (offs1 offs2 : List Nat)
    (h : ∀ s ∈ offs1, driver s (min (s + mongoBatchSize) n) = none) :
    ∀ acc : Nat,
      mongoInsertGo n driver (offs1 ++ offs2) acc =
        mongoInsertGo n driver offs2
          (acc + (offs1.map (fun s => min (s + mongoBatchSize) n - s)).sum) := by
  induction offs1 with
  | nil => intro acc; simp [mongoInsertGo]
  | cons s rest ih =>
    intro acc
    have hs := h s (List.mem_cons_self s rest)
    simp only [List.cons_append, mongoInsertGo, hs, List.append_eq]
    rw [ih (fun x hx => h x (List.mem_cons_of_mem s hx)) (acc + (min (s + mongoBatchSize) n - s))]
    congr 1
    simp only [List.map_cons, List.sum_cons]
    omega

lemma mongoOffsets_decomp (n j : Nat) (hj : j < (n + 999) / 1000) :
    mongoOffsets n =
      ((List.range j).map (· * 1000)) ++
        (j * 1000) ::
          ((List.range ((n + 999) / 1000 - (j + 1))).map (fun i => (j + 1 + i) * 1000)) := by
  unfold mongoOffsets mongoBatchSize
  have h999 : (1000 : Nat) - 1 = 999 := rfl
  rw [h999]
  obtain ⟨m, hm⟩ : ∃ m, (n + 999) / 1000 - (j + 1) = m := ⟨_, rfl⟩
  rw [hm]
  rw [show (n + 999) / 1000 = j + (m + 1) from by omega]
  rw [List.range_add, List.map_append]
  congr 1
  rw [List.map_map, List.range_succ_eq_map, List.map_cons, List.map_map]
  rw [List.cons.injEq]
  constructor
  · show (j + 0) * 1000 = j * 1000
    norm_num
  · apply List.map_congr_left
    intro i _
    show (j + (i + 1)) * 1000 = (j + 1 + i) * 1000
    ring

lemma mongoTakeSum (n j : Nat) (hj : j < (n + 999) / 1000) :
    ((List.range j).map (fun i => min (i * 1000 + 1000) n - i * 1000)).sum = 1000 * j := by
  have hfull : ∀ i, i < j → min (i * 1000 + 1000) n - i * 1000 = 1000 := by
    intro i hi
    have hle : i * 1000 + 1000 ≤ n := by omega
    omega
  have hc := List.map_congr_left
    (l := List.range j)
    (f := fun i => min (i * 1000 + 1000) n - i * 1000)
    (g := fun _ => 1000)
    (fun i hi => hfull i (List.mem_range.1 hi))
  rw [hc]
  simp [List.map_const', List.sum_replicate]
  ring

lemma mongoInsert_fail_eq (n j : Nat) (err : String)
    (driver : Nat → Nat → Option String)
    (hj : j < (n + 999) / 1000)
    (hpre : ∀ i, i < j → driver (i * 1000) (min (i * 1000 + 1000) n) = none)
    (hfail : driver (j * 1000) (min (j * 1000 + 1000) n) = some err) :
    mongoInsertEmbeddings n driver = (1000 * j, some err) := by
  have hsum := mongoTakeSum n j hj
  unfold mongoInsertEmbeddings
  rw [mongoOffsets_decomp n j hj]
  rw [mongoInsertGo_append n driver _ _ ?hpre 0]
  case hpre =>
    intro s hsmem
    obtain ⟨i, hi, rfl⟩ := List.mem_map.1 hsmem
    have hilt := List.mem_range.1 hi
    simpa [mongoBatchSize] using hpre i hilt
  simp only [mongoInsertGo, mongoBatchSize]
  rw [hfail]
  rw [List.map_map]
  have h2 : ((List.range j).map ((fun s => min (s + 1000) n - s) ∘ (· * 1000))).sum
      = 1000 * j := by
    rw [show ((fun s => min (s + 1000) n - s) ∘ fun x => x * 1000)
        = (fun i => min (i * 1000 + 1000) n - i * 1000) from rfl]
    exact hsum
  rw [h2]
  simp

lemma tidbInsert_fail_eq (n nMeta : Nat) (driver : Nat → Nat → Option String)
    (bs : List (Nat × Nat)) (e : String) (es : List String)
    (hbs : tidbInsertBatches n = .ok bs)
    (herr : (bs.map (fun b => driver b.1 b.2)).filterMap id = e :: es) :
    tidbInsertEmbeddings n nMeta driver = .ok (0, some e) := by
  unfold tidbInsertEmbeddings
  rw [hbs]
  simp only [Except.map]
  rw [herr]

/-! ## Claim theorems -/

/-- C1, counterexample: at `N = 25` the TiDB partitioning produces 13 batches,
which exceeds the concurrency `C = 10`, and the batch size is the floor
`25 / 10 = 2`, not the ceiling `⌈25 / 10⌉ = 3` the claim states. -/
theorem tidb_partition_ceil_count_false :
    tidbInsertBatches 25 =
      .ok [(0, 2), (2, 2), (4, 2), (6, 2), (8, 2), (10, 2), (12, 2), (14, 2),
        (16, 2), (18, 2), (20, 2), (22, 2), (24, 1)] ∧
    tidbInsertConcurrency < 13 ∧
    (25 + tidbInsertConcurrency - 1) / tidbInsertConcurrency = 3 :=
  ⟨rfl, by decide, by decide⟩

/-- C1, amended: for `N ≥ 10` the TiDB bulk-insert partitioning produces
contiguous batches of size `⌊N / 10⌋` (the last batch may be shorter) that
cover the index range `[0, N)` exactly once with no gaps or overlaps, and the
number of batches is `⌈N / ⌊N / 10⌋⌉`, which may exceed the concurrency 10. -/
theorem tidb_insert_partition (n : Nat) (bs : List (Nat × Nat)) (h10 : 10 ≤ n)
    (hbs : tidbInsertBatches n = .ok bs) :
    batchesFlatten bs = List.range n ∧
    bs.map Prod.snd = bs.map (fun p => min (n / 10) (n - p.1)) ∧
    bs.length = (n + n / 10 - 1) / (n / 10) := by
  have hb : 0 < n / 10 := (Nat.one_le_div_iff (by norm_num)).2 h10
  rw [tidbInsertBatches_ok n h10] at hbs
  cases hbs
  refine ⟨?_, ?_, ?_⟩
  · unfold batchesFlatten
    rw [List.flatMap_map]
    exact range_flatMap_batchSlice (n / 10) hb n
  · simp [List.map_map]
  · simp

/-- Witness for C1 at `N = 20`: ten batches of size 2 tile `[0, 20)`. -/
theorem tidb_insert_partition_witness :
    batchesFlatten [(0, 2), (2, 2), (4, 2), (6, 2), (8, 2), (10, 2), (12, 2),
        (14, 2), (16, 2), (18, 2)] = List.range 20 ∧
    ([(0, 2), (2, 2), (4, 2), (6, 2), (8, 2), (10, 2), (12, 2),
        (14, 2), (16, 2), (18, 2)] : List (Nat × Nat)).map Prod.snd =
      [(0, 2), (2, 2), (4, 2), (6, 2), (8, 2), (10, 2), (12, 2),
        (14, 2), (16, 2), (18, 2)].map (fun p => min (20 / 10) (20 - p.1)) ∧
    ([(0, 2), (2, 2), (4, 2), (6, 2), (8, 2), (10, 2), (12, 2),
        (14, 2), (16, 2), (18, 2)] : List (Nat × Nat)).length =
      (20 + 20 / 10 - 1) / (20 / 10) :=
  tidb_insert_partition 20 _ (by norm_num) rfl

/-- C2, counterexample: at `N = 20` with the batch at offset 0 failing, the
nine other batches commit 18 records, yet `TiDBServeless.insert_embeddings`
returns `(0, error)`, not `(18, error)`: confirmed work is discarded. -/
theorem tidb_discards_partial_count :
    tidbInsertEmbeddings 20 20 (fun off _ => if off = 0 then some "boom" else none)
      = .ok (0, some "boom") ∧
    tidbCommitted 20 (fun off _ => if off = 0 then some "boom" else none) = 18 ∧
    (0 : Nat) ≠ 18 :=
  ⟨rfl, rfl, by norm_num⟩

/-- C2, amended: on a batch failure, `MongodbCloud.insert_embeddings` returns
the count committed by the sub-batches completed before the failure (a count
`≥ 0` and `< N`) paired with the error, whereas
`TiDBServeless.insert_embeddings` returns `0` paired with the first error from
its result scan, discarding the count committed by its successful batches. -/
theorem insert_failure_reports (n nMeta j : Nat) (em e : String) (es : List String)
    (dm dt : Nat → Nat → Option String) (bs : List (Nat × Nat))
    (hj : j < (n + 999) / 1000)
    (hpre : ∀ i, i < j → dm (i * 1000) (min (i * 1000 + 1000) n) = none)
    (hfailm : dm (j * 1000) (min (j * 1000 + 1000) n) = some em)
    (hbs : tidbInsertBatches n = .ok bs)
    (herr : (bs.map (fun b => dt b.1 b.2)).filterMap id = e :: es) :
    mongoInsertEmbeddings n dm = (1000 * j, some em) ∧
    1000 * j < n ∧
    tidbInsertEmbeddings n nMeta dt = .ok (0, some e) :=
  ⟨mongoInsert_fail_eq n j em dm hj hpre hfailm, by omega,
    tidbInsert_fail_eq n nMeta dt bs e es hbs herr⟩

/-- Witness for C2 at `N = 1500`: the mongo driver fails on sub-batch 1 (after
1000 committed records), the TiDB driver fails on the batch at offset 150. -/
theorem insert_failure_reports_witness :
    mongoInsertEmbeddings 1500 (fun s _ => if s = 1000 then some "m-err" else none)
      = (1000 * 1, some "m-err") ∧
    1000 * 1 < 1500 ∧
    tidbInsertEmbeddings 1500 1500 (fun off _ => if off = 150 then some "t-err" else none)
      = .ok (0, some "t-err") :=
  insert_failure_reports 1500 1500 1 "m-err" "t-err" []
    (fun s _ => if s = 1000 then some "m-err" else none)
    (fun off _ => if off = 150 then some "t-err" else none)
    [(0, 150), (150, 150), (300, 150), (450, 150), (600, 150), (750, 150),
      (900, 150), (1050, 150), (1200, 150), (1350, 150)]
    (by norm_num)
    (by intro i hi; interval_cases i; rfl)
    rfl rfl rfl

/-- C3: the claim holds for the TiDB optimize loops but is violated by
`MongodbCloud.optimize`, which fetches the search-index cursor once before the
loop; with a single index whose status is PENDING and never becomes READY, the
loop exits after exactly one 30-second sleep (independently of how long it
could keep polling), returning while the readiness predicate is false. -/
theorem mongo_optimize_exits_unready :
    mongoOptimize ["PENDING"] 2 = some 1 ∧
    mongoOptimize ["PENDING"] 1000000 = some 1 ∧
    ("PENDING" : String) ≠ "READY" :=
  ⟨rfl, rfl, by decide⟩

/-- C4, counterexample: at `N = 5` (with an error-free driver and equal-length
id list) `TiDBServeless.insert_embeddings` does not return `(5, None)`: the
zero batch size makes `range` raise `ValueError` instead. -/
theorem tidb_insert_requires_ten :
    tidbInsertEmbeddings 5 5 (fun _ _ => none) = .error .rangeStepZero := rfl

/-- C4, amended: when no driver call errors, `insert_embeddings` returns
`(N, None)` — for the TiDB driver provided `N ≥ 10` (below 10 it raises), and
for the mongo driver for every `N`. -/
theorem insert_no_error_total (n m : Nat) (driver driver' : Nat → Nat → Option String)
    (h10 : 10 ≤ n) (hok : ∀ off sz, driver off sz = none)
    (hok' : ∀ off sz, driver' off sz = none) :
    tidbInsertEmbeddings n n driver = .ok (n, none) ∧
    mongoInsertEmbeddings m driver' = (m, none) := by
  constructor
  · unfold tidbInsertEmbeddings
    rw [tidbInsertBatches_ok n h10]
    simp only [Except.map]
    rw [filterMap_id_map_none _ _ (fun a _ => hok a.1 a.2)]
  · unfold mongoInsertEmbeddings
    rw [mongoInsertGo_none m driver' hok']

/-- Witness for C4 at `N = 40` (TiDB) and `N = 2300` (mongo). -/
theorem insert_no_error_total_witness :
    tidbInsertEmbeddings 40 40 (fun _ _ => none) = .ok (40, none) ∧
    mongoInsertEmbeddings 2300 (fun _ _ => none) = (2300, none) :=
  insert_no_error_total 40 2300 (fun _ _ => none) (fun _ _ => none)
    (by norm_num) (fun _ _ => rfl) (fun _ _ => rfl)

/-- C5, counterexample: `MongodbCloud.init` opens a `MongoClient` on entry and
never closes it — its trace has an open event and no close event even on the
normal exit path. -/
theorem mongo_init_never_closes :
    (mongoInitTrace false).count InitEvent.openClient = 1 ∧
    (mongoInitTrace false).count InitEvent.closeClient = 0 := by decide

/-- C5, amended: `TiDBServeless.init` closes the cursor and the connection it
acquires on every exit path, including when the body raises (the trace is the
same on both paths and balances every open with a close); `MongodbCloud.init`
never closes the client it opens, on either exit path. -/
theorem init_scoped_release :
    tidbInitTrace false
      = [.openConn, .openCursor, .bodyRun, .closeCursor, .closeConn] ∧
    tidbInitTrace true = tidbInitTrace false ∧
    (tidbInitTrace true).count InitEvent.closeConn
      = (tidbInitTrace true).count InitEvent.openConn ∧
    (tidbInitTrace true).count InitEvent.closeCursor
      = (tidbInitTrace true).count InitEvent.openCursor ∧
    (mongoInitTrace true).count InitEvent.openClient = 1 ∧
    (mongoInitTrace true).count InitEvent.closeClient = 0 := by decide

/-- C6, counterexample: `MongodbCloud.__init__` with `drop_old = False` is not
free of backend operations: it constructs a client and pings the server. -/
theorem mongo_ctor_pings_without_drop :
    mongoCtorOps false ≠ [] ∧ CtorOp.ping ∈ mongoCtorOps false := by decide

/-- C6, amended: `TiDBServeless.__init__` with `drop_old = False` performs no
backend operation at all; `MongodbCloud.__init__` always connects and pings,
but with `drop_old = False` performs no schema operation (no drop, no create,
no index creation), leaving any existing collection and index untouched. -/
theorem ctor_drop_old_false_ops :
    tidbCtorOps false = [] ∧
    mongoCtorOps false = [CtorOp.connect, CtorOp.ping] ∧
    (mongoCtorOps false).count CtorOp.dropCollection = 0 ∧
    (mongoCtorOps false).count CtorOp.createCollection = 0 ∧
    (mongoCtorOps false).count CtorOp.createSearchIndex = 0 := by decide

/-- C7, counterexample: the TiDB metric resolution does not map the three enum
members to distinct strings: inner-product and cosine both resolve to the
string cosine. -/
theorem tidb_metric_ip_not_distinct :
    TiDBIndexConfig.parse_metric (some MetricType.IP)
      = TiDBIndexConfig.parse_metric (some MetricType.COSINE) ∧
    TiDBIndexConfig.parse_metric (some MetricType.IP) = "cosine" := by decide

/-- C7, amended: the mongo metric resolution maps L2, inner-product and cosine
to the three distinct strings euclidean, dotProduct and cosine, with cosine
the default when the metric type is unset; the TiDB resolution maps L2 to l2
and everything else — inner-product, cosine, and unset alike — to cosine. -/
theorem metric_resolution :
    (MongoIndexConfig.parse_metric (some MetricType.L2) = "euclidean" ∧
     MongoIndexConfig.parse_metric (some MetricType.IP) = "dotProduct" ∧
     MongoIndexConfig.parse_metric (some MetricType.COSINE) = "cosine" ∧
     MongoIndexConfig.parse_metric none = "cosine") ∧
    (("euclidean" : String) ≠ "dotProduct" ∧
     ("euclidean" : String) ≠ "cosine" ∧
     ("dotProduct" : String) ≠ "cosine") ∧
    (TiDBIndexConfig.parse_metric (some MetricType.L2) = "l2" ∧
     TiDBIndexConfig.parse_metric (some MetricType.IP) = "cosine" ∧
     TiDBIndexConfig.parse_metric (some MetricType.COSINE) = "cosine" ∧
     TiDBIndexConfig.parse_metric none = "cosine") := by decide

/-- C8: both `search_embedding` implementations issue exactly one read-only
backend call, perform no write, and return the backend id sequence unmodified
and in backend order; when the backend returns at most `k` rows (which the SQL
LIMIT and the vectorSearch limit guarantee), the result has length at most `k`. -/
theorem search_returns_backend_order (rows : List Int) (k : Nat)
    (h : rows.length ≤ k) :
    (tidbSearchEmbedding rows).2 = rows ∧
    (mongoSearchEmbedding rows).2 = rows ∧
    (tidbSearchEmbedding rows).1 = [DBEffect.readQuery] ∧
    (mongoSearchEmbedding rows).1 = [DBEffect.readQuery] ∧
    (tidbSearchEmbedding rows).2.length ≤ k ∧
    (mongoSearchEmbedding rows).2.length ≤ k ∧
    DBEffect.writeOp ∉ (tidbSearchEmbedding rows).1 ∧
    DBEffect.writeOp ∉ (mongoSearchEmbedding rows).1 := by
  have hmap : rows.map (fun i => i) = rows := List.map_id'' (fun a => rfl) rows
  have hnot : DBEffect.writeOp ∉ ([DBEffect.readQuery] : List DBEffect) := by decide
  refine ⟨hmap, hmap, rfl, rfl, ?_, ?_, hnot, hnot⟩
  · show (rows.map (fun i => i)).length ≤ k
    rw [hmap]; exact h
  · show (rows.map (fun i => i)).length ≤ k
    rw [hmap]; exact h

/-- Witness for C8: three backend rows, `k = 7`. -/
theorem search_returns_backend_order_witness :
    (tidbSearchEmbedding [5, 1, 3]).2 = [5, 1, 3] ∧
    (mongoSearchEmbedding [5, 1, 3]).2 = [5, 1, 3] ∧
    (tidbSearchEmbedding [5, 1, 3]).1 = [DBEffect.readQuery] ∧
    (mongoSearchEmbedding [5, 1, 3]).1 = [DBEffect.readQuery] ∧
    (tidbSearchEmbedding [5, 1, 3]).2.length ≤ 7 ∧
    (mongoSearchEmbedding [5, 1, 3]).2.length ≤ 7 ∧
    DBEffect.writeOp ∉ (tidbSearchEmbedding [5, 1, 3]).1 ∧
    DBEffect.writeOp ∉ (mongoSearchEmbedding [5, 1, 3]).1 :=
  search_returns_backend_order [5, 1, 3] 7 (by norm_num)

/-- C9: for `N < 10` (the fixed insert concurrency), the floor-division batch
size of `TiDBServeless.insert_embeddings` is 0 and `range` raises `ValueError`
before any batch exists, so no driver call is made and no pair is returned:
the whole call escapes with the exception, whatever the driver would do. -/
theorem tidb_insert_small_raises (n nMeta : Nat) (driver : Nat → Nat → Option String)
    (h : n < 10) :
    tidbInsertEmbeddings n nMeta driver = .error .rangeStepZero ∧
    tidbInsertBatches n = .error .rangeStepZero := by
  have hb : n / 10 = 0 := Nat.div_eq_of_lt h
  have hbatches : tidbInsertBatches n = .error .rangeStepZero := by
    unfold tidbInsertBatches pyRange tidbInsertConcurrency
    simp [hb, Except.map]
  refine ⟨?_, hbatches⟩
  unfold tidbInsertEmbeddings
  rw [hbatches]
  rfl

/-- Witness for C9 at `N = 7`. -/
theorem tidb_insert_small_raises_witness :
    (7 : Nat) < 10 ∧
    (tidbInsertEmbeddings 7 7 (fun _ _ => none) = .error .rangeStepZero ∧
      tidbInsertBatches 7 = .error .rangeStepZero) :=
  ⟨by norm_num, tidb_insert_small_raises 7 7 (fun _ _ => none) (by norm_num)⟩

/-- C10: when sub-batch `j` of `MongodbCloud.insert_embeddings` is the first
`insert_many` to raise, the returned count is `1000 * j`: the sum of the sizes
of the fully completed 1000-record sub-batches before the failing one (each of
which is full, since only the last sub-batch can be short), a multiple of
1000, and nothing from the failing sub-batch is counted. -/
theorem mongo_insert_partial_count (n j : Nat) (err : String)
    (driver : Nat → Nat → Option String)
    (hj : j < (n + 999) / 1000)
    (hpre : ∀ i, i < j → driver (i * 1000) (min (i * 1000 + 1000) n) = none)
    (hfail : driver (j * 1000) (min (j * 1000 + 1000) n) = some err) :
    mongoInsertEmbeddings n driver = (1000 * j, some err) ∧
    ((List.range j).map (fun i => min (i * 1000 + 1000) n - i * 1000)).sum = 1000 * j ∧
    1000 ∣ 1000 * j :=
  ⟨mongoInsert_fail_eq n j err driver hj hpre hfail, mongoTakeSum n j hj, ⟨j, rfl⟩⟩

/-- Witness for C10 at `N = 2500` with the third sub-batch failing. -/
theorem mongo_insert_partial_count_witness :
    mongoInsertEmbeddings 2500 (fun s _ => if s = 2000 then some "boom" else none)
      = (1000 * 2, some "boom") ∧
    ((List.range 2).map (fun i => min (i * 1000 + 1000) 2500 - i * 1000)).sum
      = 1000 * 2 ∧
    1000 ∣ 1000 * 2 :=
  mongo_insert_partial_count 2500 2 "boom"
    (fun s _ => if s = 2000 then some "boom" else none)
    (by norm_num)
    (by intro i hi; interval_cases i <;> rfl)
    rfl

end VectorDBBench
